import Mathlib

/-!
Verification development for the while-game interactive-fiction client.

The development shallowly embeds the core modules of the repository:

* `src/src/utils/errorHandler.ts` — error taxonomy, classifier, validators,
  and the `retryWithBackoff` retry policy;
* `src/src/utils/gameTimeTracker.ts` — the pause-aware elapsed-time tracker;
* the emotion utilities (`clampEmotionValue`, `getDefaultEmotionData`,
  `normalizeEmotionData`);
* the `useGameState` hook (session progression engine: `createNewGame`,
  `proceedToNextScene`, `selectChoice`, `getCurrentScene`, `isLastScene`);
* the GamePage `handleNextScene` handler, which decides between a local
  buffer advance and a network advance.

JavaScript numbers are modelled as rationals (`ℚ`) where fractional values
matter and as integers (`ℤ`) where the program only ever holds integers
(ids, timestamps in milliseconds).  Untyped JavaScript values reaching the
validators are modelled by the inductive type `JsVal`.  Asynchronous
operations are modelled by passing the settled transport result
(`Except JsError _`) explicitly; thrown exceptions become `Option JsError`
results.
-/

namespace WhileGame

/-- Model of an untyped JavaScript value, as seen by the runtime
validators (`validateEmotionData`) and the emotion normalizer. -/
inductive JsVal where
  | num (q : ℚ)
  | str (s : String)
  | boolean (b : Bool)
  | nul
  | undef
  | obj (fields : List (String × JsVal))
  | arr (elems : List JsVal)

/-- JavaScript property read `o[k]` on an object literal: the binding list
is assumed key-deduplicated (as produced by JS object construction), and a
missing key reads as `undefined`, modelled by `none`. -/
def jsLookup (fields : List (String × JsVal)) (k : String) : Option JsVal :=
  (fields.find? (fun p => p.fst = k)).map (fun p => p.snd)

/-- Substring test on character lists, used to embed
`String.prototype.includes`. -/
def strContainsAux : List Char → List Char → Bool
  | [], pat => pat.isEmpty
  | c :: rest, pat => pat.isPrefixOf (c :: rest) || strContainsAux rest pat

/-- `s.includes(pat)` from JavaScript. -/
def strContains (s pat : String) : Bool :=
  strContainsAux s.toList pat.toList

/-! ## Error handler (`src/src/utils/errorHandler.ts`) -/

/-- `GameErrorCode` from `errorHandler.ts`. -/
inductive GameErrorCode where
  | INVALID_SCENE
  | MISSING_SESSION
  | INVALID_CHOICE
  | INVALID_SCENE_TYPE
  | NETWORK_ERROR
  | AUTH_ERROR
  | VALIDATION_ERROR
  | SERVER_ERROR
  | UNKNOWN_ERROR
deriving DecidableEq, Repr

/-- `ERROR_MESSAGES` / `getErrorMessage` from `errorHandler.ts`: the fixed
user-facing message for each error code. -/
def getErrorMessage : GameErrorCode → String
  | .INVALID_SCENE => "유효하지 않은 씬입니다. 게임을 다시 시작해주세요."
  | .MISSING_SESSION => "세션 데이터를 찾을 수 없습니다. 게임을 다시 시작해주세요."
  | .INVALID_CHOICE => "유효하지 않은 선택입니다. 다시 선택해주세요."
  | .INVALID_SCENE_TYPE => "알 수 없는 씬 타입입니다. 게임을 다시 시작해주세요."
  | .NETWORK_ERROR => "네트워크 연결에 문제가 있습니다. 인터넷 연결을 확인해주세요."
  | .AUTH_ERROR => "인증에 실패했습니다. 다시 로그인해주세요."
  | .VALIDATION_ERROR => "입력 데이터가 올바르지 않습니다. 다시 시도해주세요."
  | .SERVER_ERROR => "서버에 문제가 발생했습니다. 잠시 후 다시 시도해주세요."
  | .UNKNOWN_ERROR => "알 수 없는 오류가 발생했습니다. 다시 시도해주세요."

/-- The failure values the classifier can see: `ApiError` from
`services/api.ts` (message plus optional numeric status), a built-in
`TypeError` (as produced by a failed `fetch`), a `GameStateError` from
`errorHandler.ts` (message plus `GameErrorCode` tag), or any other
`Error`. -/
inductive JsError where
  | apiError (message : String) (status : Option ℤ)
  | typeError (message : String)
  | gameStateError (message : String) (code : GameErrorCode)
  | otherError (message : String)
deriving DecidableEq, Repr

/-- The `message` property of a thrown error. -/
def jsErrorMessage : JsError → String
  | .apiError m _ => m
  | .typeError m => m
  | .gameStateError m _ => m
  | .otherError m => m

/-- `classifyApiError` from `errorHandler.ts`.  Only an `ApiError` is
inspected for a status code (`!error.status` is also true for a status of
0, hence the explicit 0 branch); a `TypeError` whose message contains
"fetch" is treated as a network error; everything else is unknown. -/
def classifyApiError : JsError → GameErrorCode
  | .apiError _ none => .NETWORK_ERROR
  | .apiError _ (some st) =>
      if st = 0 then .NETWORK_ERROR
      else if st = 401 || st = 403 then .AUTH_ERROR
      else if st = 422 || st = 400 then .VALIDATION_ERROR
      else if 500 ≤ st then .SERVER_ERROR
      else .UNKNOWN_ERROR
  | .typeError msg =>
      if strContains msg "fetch" then .NETWORK_ERROR else .UNKNOWN_ERROR
  | _ => .UNKNOWN_ERROR

/-- `handleApiError` from `errorHandler.ts`. -/
def handleApiError (e : JsError) : String :=
  getErrorMessage (classifyApiError e)

/-- `createInvalidSceneTypeError` from `errorHandler.ts` (quotes in the
original message text are dropped; no claim depends on the literal). -/
def createInvalidSceneTypeError (sceneType : String) : JsError :=
  .gameStateError ("Invalid scene type: " ++ sceneType ++ ". Expected dialogue or selections.")
    .INVALID_SCENE_TYPE

/-- `createMissingSessionError` from `errorHandler.ts`. -/
def createMissingSessionError : JsError :=
  .gameStateError "Session data is missing or invalid." .MISSING_SESSION

/-- `createInvalidSceneError` from `errorHandler.ts`. -/
def createInvalidSceneError : JsError :=
  .gameStateError "Scene data is invalid or corrupted." .INVALID_SCENE

/-- `createInvalidChoiceError` from `errorHandler.ts`. -/
def createInvalidChoiceError (selectionId : ℤ) : JsError :=
  .gameStateError ("Invalid selection ID: " ++ toString selectionId) .INVALID_CHOICE

/-- `isRecoverableError` from `errorHandler.ts`: exactly the network and
server classifications are retried. -/
def isRecoverableError (e : JsError) : Bool :=
  classifyApiError e = GameErrorCode.NETWORK_ERROR ||
    classifyApiError e = GameErrorCode.SERVER_ERROR

/-! ## Typed payload shapes (`src/src/types/index.ts`) -/

/-- `SceneData` from `types/index.ts`.  The `type` field stays a string so
that invalid discriminators remain representable. -/
structure SceneData where
  role : String
  scene_id : ℤ
  type : String
  dialogue : Option String
  selections : Option (List (String × String))
  character_filename : Option String
deriving DecidableEq, Repr

/-- `SessionData` from `types/index.ts`. -/
structure SessionData where
  session_id : ℤ
  content : String
  scenes : List SceneData
  background_url : Option String
deriving DecidableEq, Repr

/-- `CreateGameResponse` from `types/index.ts`; `sessions` is optional
because `createNewGame` explicitly guards against its absence. -/
structure CreateGameResponse where
  game_id : ℤ
  personality : String
  genre : String
  title : String
  playtime : ℤ
  sessions : Option (List SessionData)
deriving DecidableEq, Repr

/-- `NextSceneResponse` from `types/index.ts`; `scenes` is optional because
the hook explicitly guards against its absence. -/
structure NextSceneResponse where
  session_id : ℤ
  content : String
  scenes : Option (List SceneData)
  background_url : Option String
deriving DecidableEq, Repr

/-- `validateSceneData` from `errorHandler.ts`, on the typed scene shape.
The purely dynamic type checks of the original (`scene_id` a number,
`dialogue` null-or-string, `character_filename` null-or-string) are
guaranteed by the typed embedding; the remaining checks are the
discriminator whitelist and the presence of `selections` on
selection-type scenes. -/
def validateSceneData (scene : SceneData) : Bool :=
  if scene.type ≠ "dialogue" && scene.type ≠ "selection" && scene.type ≠ "selections" then
    false
  else if (scene.type = "selection" || scene.type = "selections") && scene.selections = none then
    false
  else
    true

/-- `validateSessionData` from `errorHandler.ts`, on the typed session
shape: a non-empty scene list, every element a valid scene. -/
def validateSessionData (session : SessionData) : Bool :=
  !session.scenes.isEmpty && session.scenes.all validateSceneData

/-- The seven canonical emotion field names (`requiredFields` in
`validateEmotionData`). -/
def requiredFields : List String :=
  ["angry", "disgust", "fear", "happy", "sad", "surprise", "neutral"]

/-- The per-field check of `validateEmotionData`: the field must read as a
number (`typeof value === 'number'`) with `0 ≤ value ≤ 100`. -/
def emotionFieldOk (fields : List (String × JsVal)) (f : String) : Bool :=
  match jsLookup fields f with
  | some (.num v) => decide (0 ≤ v) && decide (v ≤ 100)
  | _ => false

/-- `validateEmotionData` from `errorHandler.ts`, on untyped input: the
argument must be an object, and each of the seven canonical fields must
read as a number between 0 and 100 inclusive.  A JS array passes the
`typeof` test but none of the named field reads, so it is rejected. -/
def validateEmotionData : JsVal → Bool
  | .obj fields => requiredFields.all (emotionFieldOk fields)
  | _ => false

/-! ## Emotion utilities (`emotionUtils.ts`) -/

/-- JavaScript `Math.round`: half-values round toward positive infinity. -/
def jsRound (q : ℚ) : ℤ :=
  ⌊q + 1 / 2⌋

/-- `clampEmotionValue` from `emotionUtils.ts`:
`Math.max(0, Math.min(100, Math.round(value)))`. -/
def clampEmotionValue (value : ℚ) : ℤ :=
  max 0 (min 100 (jsRound value))

/-- The canonical emotion vector produced by the normalizer. -/
structure EmotionData where
  angry : ℤ
  disgust : ℤ
  fear : ℤ
  happy : ℤ
  sad : ℤ
  surprise : ℤ
  neutral : ℤ
deriving DecidableEq, Repr

/-- `getDefaultEmotionData` from `emotionUtils.ts`. -/
def getDefaultEmotionData : EmotionData :=
  ⟨0, 0, 0, 0, 0, 0, 100⟩

/-- The inner `getEmotionValue` helper of `normalizeEmotionData`: try each
alias in order, the first alias bound to a numeric value wins (clamped);
non-numeric and missing bindings fall through; no alias matches yields 0. -/
def getEmotionValue (fields : List (String × JsVal)) : List String → ℤ
  | [] => 0
  | k :: ks =>
      match jsLookup fields k with
      | some (.num v) => clampEmotionValue v
      | _ => getEmotionValue fields ks

/-- `normalizeEmotionData` from `emotionUtils.ts`.  Non-object input (and
null/undefined) yields the default vector; a JS array passes the `typeof`
check but has none of the string keys, so every field defaults to 0. -/
def normalizeEmotionData : JsVal → EmotionData
  | .obj fields =>
      { angry := getEmotionValue fields ["angry", "anger", "Angry", "Anger"]
        disgust := getEmotionValue fields ["disgust", "Disgust"]
        fear := getEmotionValue fields ["fear", "Fear"]
        happy := getEmotionValue fields ["happy", "happiness", "Happy", "Happiness"]
        sad := getEmotionValue fields ["sad", "sadness", "Sad", "Sadness"]
        surprise := getEmotionValue fields ["surprise", "surprised", "Surprise", "Surprised"]
        neutral := getEmotionValue fields ["neutral", "Neutral"] }
  | .arr _ =>
      { angry := 0, disgust := 0, fear := 0, happy := 0, sad := 0, surprise := 0, neutral := 0 }
  | _ => getDefaultEmotionData

/-! ## Elapsed-time tracker (`src/src/utils/gameTimeTracker.ts`)

The tracker is a record of its three private fields; every method takes the
current clock reading `now` (the embedding of `Date.now()`, in
milliseconds) explicitly and returns the updated record. -/

/-- The `GameTimeTracker` state: `startTime` and `lastPauseStart` are
nullable instants, `pausedTime` accumulates completed pause durations. -/
structure GameTimeTracker where
  startTime : Option ℤ
  pausedTime : ℤ
  lastPauseStart : Option ℤ
deriving DecidableEq, Repr

/-- A fresh tracker (all fields at their initial values). -/
def GameTimeTracker.fresh : GameTimeTracker :=
  ⟨none, 0, none⟩

/-- `start()`: record now as the start instant and discard all pause
state — a hard reset even when already running. -/
def GameTimeTracker.start (_ : GameTimeTracker) (now : ℤ) : GameTimeTracker :=
  ⟨some now, 0, none⟩

/-- `pause()`: no-op when unstarted or already paused, otherwise record the
pause instant. -/
def GameTimeTracker.pause (t : GameTimeTracker) (now : ℤ) : GameTimeTracker :=
  if t.startTime = none then t
  else if t.lastPauseStart ≠ none then t
  else { t with lastPauseStart := some now }

/-- `resume()`: no-op when not paused, otherwise add the finished pause
interval to `pausedTime` and clear the pause instant. -/
def GameTimeTracker.resume (t : GameTimeTracker) (now : ℤ) : GameTimeTracker :=
  match t.lastPauseStart with
  | none => t
  | some ps => { t with pausedTime := t.pausedTime + (now - ps), lastPauseStart := none }

/-- `getElapsedSeconds()`: 0 when unstarted, otherwise
`Math.floor((total − pausedTime − currentPauseDuration) / 1000)`;
`Int.fdiv` is floor division, matching `Math.floor` on the exact
quotient. -/
def GameTimeTracker.getElapsedSeconds (t : GameTimeTracker) (now : ℤ) : ℤ :=
  match t.startTime with
  | none => 0
  | some st =>
      let totalElapsed := now - st
      let currentPauseDuration :=
        match t.lastPauseStart with
        | some ps => now - ps
        | none => 0
      Int.fdiv (totalElapsed - t.pausedTime - currentPauseDuration) 1000

/-- `reset()`: back to the initial state. -/
def GameTimeTracker.reset (_ : GameTimeTracker) : GameTimeTracker :=
  GameTimeTracker.fresh

/-! ## Retry policy (`retryWithBackoff` in `errorHandler.ts`)

The wrapped asynchronous operation is embedded as a function from the
attempt number (0-based) to that invocation's settled result.  The outcome
records the returned value or thrown error, how many times the operation
was invoked, and the list of backoff delays that were awaited, in order. -/

/-- Result of a `retryWithBackoff` run: the value or the thrown error
(`none` models the never-assigned `lastError`, i.e. `undefined`), the
number of invocations of the wrapped operation, and the awaited delays in
milliseconds. -/
inductive RetryOutcome (α : Type) where
  | success (value : α) (calls : ℕ) (delays : List ℕ)
  | failure (error : Option JsError) (calls : ℕ) (delays : List ℕ)
deriving DecidableEq, Repr

/-- The `for` loop of `retryWithBackoff`: `remaining` attempts are left,
`attempt` invocations already happened, `lastErr`/`delays` accumulate.
Exiting the loop throws `lastErr`; a failure that classifies as neither
network nor server error is rethrown at once; a retryable failure on the
final attempt is followed by no delay. -/
def retryLoop (fn : ℕ → Except JsError α) (initialDelay : ℕ) :
    ℕ → ℕ → Option JsError → List ℕ → RetryOutcome α
  | 0, attempt, lastErr, delays => .failure lastErr attempt delays
  | r + 1, attempt, _lastErr, delays =>
      match fn attempt with
      | .ok v => .success v (attempt + 1) delays
      | .error e =>
          if classifyApiError e ≠ GameErrorCode.NETWORK_ERROR ∧
              classifyApiError e ≠ GameErrorCode.SERVER_ERROR then
            .failure (some e) (attempt + 1) delays
          else if r = 0 then
            .failure (some e) (attempt + 1) delays
          else
            retryLoop fn initialDelay r (attempt + 1) (some e)
              (delays ++ [initialDelay * 2 ^ attempt])

/-- `retryWithBackoff` from `errorHandler.ts`.  `maxRetries` is an integer
so that the non-positive edge case of the JS loop bound is representable
(`attempt < maxRetries` never holds). -/
def retryWithBackoff (fn : ℕ → Except JsError α) (maxRetries : ℤ) (initialDelay : ℕ) :
    RetryOutcome α :=
  retryLoop fn initialDelay maxRetries.toNat 0 none []

/-! ## Session progression engine (`useGameState` hook) -/

/-- `GameState` from the `useGameState` hook. -/
structure GameState where
  gameId : Option ℤ
  sessionId : Option ℤ
  currentSceneId : Option ℤ
  scenes : List SceneData
  currentSceneIndex : ℕ
  backgroundUrl : Option String
  isLoading : Bool
  error : Option String
deriving DecidableEq, Repr

/-- `initialGameState` from the hook. -/
def initialGameState : GameState :=
  { gameId := none, sessionId := none, currentSceneId := none, scenes := [],
    currentSceneIndex := 0, backgroundUrl := none, isLoading := false, error := none }

/-- `getCurrentScene`: `scenes[currentSceneIndex] ?? null`. -/
def getCurrentScene (s : GameState) : Option SceneData :=
  s.scenes.get? s.currentSceneIndex

/-- `isLastScene`: `currentSceneIndex >= scenes.length - 1` (subtraction
over the integers, as in JavaScript; vacuously true on an empty buffer). -/
def isLastScene (s : GameState) : Bool :=
  (s.currentSceneIndex : ℤ) ≥ (s.scenes.length : ℤ) - 1

/-- Result of one engine operation: the updated `GameState`, the thrown
error if the operation rejected, whether the transport was invoked, and
the `{emotion, time}` payload handed to the transport (when invoked). -/
structure OpResult where
  state : GameState
  thrown : Option JsError
  calledTransport : Bool
  sentPayload : Option (EmotionData × ℤ)
deriving DecidableEq, Repr

/-- `createNewGame` from the hook, with the settled result of the (already
retried) `createGame` transport passed in.  The loading flag is set, the
response is validated (`sessions` present and non-empty, first session
valid, first scene valid), and on success the state is replaced wholesale;
every failure is caught, stores `handleApiError` of the thrown value in
the `error` field, clears the loading flag, and rethrows. -/
def createNewGame (s : GameState) (res : Except JsError CreateGameResponse) : OpResult :=
  match res with
  | .error e =>
      ⟨{ s with isLoading := false, error := some (handleApiError e) }, some e, true, none⟩
  | .ok response =>
      match response.sessions with
      | none =>
          ⟨{ s with isLoading := false, error := some (handleApiError createMissingSessionError) },
            some createMissingSessionError, true, none⟩
      | some [] =>
          ⟨{ s with isLoading := false, error := some (handleApiError createMissingSessionError) },
            some createMissingSessionError, true, none⟩
      | some (firstSession :: _) =>
          if !validateSessionData firstSession then
            ⟨{ s with isLoading := false, error := some (handleApiError createMissingSessionError) },
              some createMissingSessionError, true, none⟩
          else
            match firstSession.scenes with
            | [] =>
                ⟨{ s with isLoading := false, error := some (handleApiError createInvalidSceneError) },
                  some createInvalidSceneError, true, none⟩
            | scene0 :: rest =>
                if !validateSceneData scene0 then
                  ⟨{ s with isLoading := false, error := some (handleApiError createInvalidSceneError) },
                    some createInvalidSceneError, true, none⟩
                else
                  ⟨{ gameId := some response.game_id, sessionId := some firstSession.session_id, currentSceneId := some scene0.scene_id, scenes := scene0 :: rest, currentSceneIndex := 0, backgroundUrl := firstSession.background_url, isLoading := false, error := none }, none, true, none⟩

/-- Shared tail of `proceedToNextScene` and `selectChoice`: the code after
`setGameState(isLoading := true, error := none)`, given the default-filled
emotion payload, the tracker seconds, and the settled transport result. -/
def advanceWithResponse (s : GameState) (em : EmotionData) (elapsed : ℤ)
    (res : Except JsError NextSceneResponse) : OpResult :=
  match res with
  | .error e =>
      ⟨{ s with isLoading := false, error := some (handleApiError e) },
        some e, true, some (em, elapsed)⟩
  | .ok response =>
      match response.scenes with
      | none =>
          ⟨{ s with isLoading := false, error := some (handleApiError createInvalidSceneError) },
            some createInvalidSceneError, true, some (em, elapsed)⟩
      | some [] =>
          ⟨{ s with isLoading := false, error := some (handleApiError createInvalidSceneError) },
            some createInvalidSceneError, true, some (em, elapsed)⟩
      | some (scene0 :: rest) =>
          if !validateSceneData scene0 then
            ⟨{ s with isLoading := false, error := some (handleApiError createInvalidSceneError) },
              some createInvalidSceneError, true, some (em, elapsed)⟩
          else
            ⟨{ s with sessionId := some response.session_id, scenes := scene0 :: rest, currentSceneId := some scene0.scene_id, currentSceneIndex := 0, backgroundUrl := response.background_url.orElse (fun _ => s.backgroundUrl), isLoading := false, error := none }, none, true, some (em, elapsed)⟩

/-- `proceedToNextScene` from the hook.  Null identifiers throw
`createInvalidSceneError` before any state change; a non-dialogue current
scene throws `createInvalidSceneTypeError` before any state change; in
both cases no transport call happens.  Otherwise the transport is always
invoked with the defaulted emotion and the tracker seconds — there is no
local-advance path inside the hook. -/
def proceedToNextScene (s : GameState) (emotion : Option EmotionData) (elapsed : ℤ)
    (res : Except JsError NextSceneResponse) : OpResult :=
  match s.gameId, s.sessionId, s.currentSceneId with
  | some _, some _, some _ =>
      match getCurrentScene s with
      | some sc =>
          if sc.type ≠ "dialogue" then
            ⟨s, some (createInvalidSceneTypeError sc.type), false, none⟩
          else
            advanceWithResponse s (emotion.getD getDefaultEmotionData) elapsed res
      | none => advanceWithResponse s (emotion.getD getDefaultEmotionData) elapsed res
  | _, _, _ => ⟨s, some createInvalidSceneError, false, none⟩

/-- `selectChoice` from the hook.  After the identifier check, a missing
current scene throws `createInvalidSceneError`, a non-selection scene
throws `createInvalidSceneTypeError`, and a selection id that is not a key
of the scene's `selections` map throws `createInvalidChoiceError` — all
before any state change or transport call.  Otherwise identical to the
dialogue advance (with the selection transport variant). -/
def selectChoice (s : GameState) (selectionId : ℤ) (emotion : Option EmotionData)
    (elapsed : ℤ) (res : Except JsError NextSceneResponse) : OpResult :=
  match s.gameId, s.sessionId, s.currentSceneId with
  | some _, some _, some _ =>
      match getCurrentScene s with
      | none => ⟨s, some createInvalidSceneError, false, none⟩
      | some sc =>
          if sc.type ≠ "selection" ∧ sc.type ≠ "selections" then
            ⟨s, some (createInvalidSceneTypeError sc.type), false, none⟩
          else
            match sc.selections with
            | none => ⟨s, some (createInvalidChoiceError selectionId), false, none⟩
            | some sels =>
                if (sels.find? (fun p => p.fst = toString selectionId)).isNone then
                  ⟨s, some (createInvalidChoiceError selectionId), false, none⟩
                else
                  advanceWithResponse s (emotion.getD getDefaultEmotionData) elapsed res
  | _, _, _ => ⟨s, some createInvalidSceneError, false, none⟩

/-! ## GamePage scene navigation (`handleNextScene`)

The page keeps its own scene-navigation index (`currentSceneIndex` in the
component state, here `pageIndex`) next to the hook state, plus a dialogue
log and a page-level error string. -/

/-- The slice of GamePage component state that `handleNextScene`
touches. -/
structure PageState where
  game : GameState
  pageIndex : ℕ
  dialogueLog : List (String × String)
  pageError : Option String
deriving DecidableEq, Repr

/-- `handleNextScene` from `GamePage/index.tsx`, with the emotion snapshot,
tracker seconds and settled transport result passed in.  Returns the new
page state and whether the transport was invoked.  A missing current scene
(per the hook's index) returns unchanged; otherwise the dialogue log is
appended when the current scene has non-empty dialogue; when
`isLastScene()` is false only the page's own index is incremented (no
transport call, hook state untouched); when it is true and the scene is
dialogue-type, `proceedToNextScene` runs and on success the page index
resets to 0, on failure the thrown message lands in the page error. -/
def handleNextScene (p : PageState) (emotion : EmotionData) (elapsed : ℤ)
    (res : Except JsError NextSceneResponse) : PageState × Bool :=
  match getCurrentScene p.game with
  | none => (p, false)
  | some sc =>
      let log :=
        match sc.dialogue with
        | some d =>
            if d = "" then p.dialogueLog
            else p.dialogueLog ++ [((if sc.role = "" then "캐릭터" else sc.role), d)]
        | none => p.dialogueLog
      if !isLastScene p.game then
        ({ p with dialogueLog := log, pageIndex := p.pageIndex + 1 }, false)
      else if sc.type = "dialogue" then
        let r := proceedToNextScene p.game (some emotion) elapsed res
        match r.thrown with
        | none =>
            ({ p with game := r.state, dialogueLog := log, pageIndex := 0 },
              r.calledTransport)
        | some e =>
            ({ p with game := r.state, dialogueLog := log, pageError := some (jsErrorMessage e) },
              r.calledTransport)
      else
        ({ p with dialogueLog := log }, false)

/-! ## Claim-side reference definitions and concrete fixtures -/

/-- The emotion validator as claim C5 words it (spec §4.3): the object must
contain exactly the seven canonical fields — no others — and every one must
already be an integer in [0,100].  Defined only to be compared against the
source's `validateEmotionData`. -/
def validateEmotionDataClaimed : JsVal → Bool
  | .obj fields =>
      (requiredFields.all (fun f =>
        match jsLookup fields f with
        | some (.num v) => decide (0 ≤ v) && decide (v ≤ 100) && decide ((⌊v⌋ : ℚ) = v)
        | _ => false)) &&
      fields.all (fun p => requiredFields.contains p.fst)
  | _ => false

/-- A dialogue scene with id 1 (first buffer position). -/
def sceneD1 : SceneData :=
  { role := "narrator", scene_id := 1, type := "dialogue",
    dialogue := some "Welcome to the game!", selections := none, character_filename := none }

/-- A dialogue scene with id 2 (second buffer position). -/
def sceneD2 : SceneData :=
  { role := "narrator", scene_id := 2, type := "dialogue",
    dialogue := some "The story continues.", selections := none, character_filename := none }

/-- An engine state holding a two-scene buffer at index 0 — not the last
scene. -/
def twoSceneState : GameState :=
  { gameId := some 123, sessionId := some 1, currentSceneId := some 1,
    scenes := [sceneD1, sceneD2], currentSceneIndex := 0, backgroundUrl := none,
    isLoading := false, error := none }

/-- The GamePage state wrapping `twoSceneState` with the page index at 0. -/
def twoScenePage : PageState :=
  { game := twoSceneState, pageIndex := 0, dialogueLog := [], pageError := none }

/-- An engine state at the last scene of a one-scene dialogue buffer. -/
def oneSceneState : GameState :=
  { gameId := some 123, sessionId := some 1, currentSceneId := some 1,
    scenes := [sceneD1], currentSceneIndex := 0, backgroundUrl := none,
    isLoading := false, error := none }

/-- A GamePage state at the last scene of a one-scene dialogue buffer. -/
def oneScenePage : PageState :=
  { game := oneSceneState, pageIndex := 0, dialogueLog := [], pageError := none }

/-- A well-formed advance response carrying one new dialogue scene. -/
def respOneScene : NextSceneResponse :=
  { session_id := 2, content := "next", scenes := some [sceneD1], background_url := none }

/-- A creation response whose `sessions` field is the empty array
(end-to-end scenario D). -/
def emptySessionsResponse : CreateGameResponse :=
  { game_id := 123, personality := "brave", genre := "fantasy",
    title := "Epic Adventure", playtime := 30, sessions := some [] }

/-! ## Theorems -/

/-- `Math.round` is monotone. -/
lemma jsRound_le_jsRound {a b : ℚ} (h : a ≤ b) : jsRound a ≤ jsRound b :=
  Int.floor_le_floor (by linarith)

/-- `Math.round` fixes integers. -/
lemma jsRound_intCast (n : ℤ) : jsRound (n : ℚ) = n := by
  unfold jsRound
  rw [Int.floor_int_add]
  have h0 : ⌊(1 : ℚ) / 2⌋ = 0 := by
    rw [Int.floor_eq_zero_iff]
    constructor <;> norm_num
  rw [h0, add_zero]

lemma jsRound_zero : jsRound (0 : ℚ) = 0 := by
  have := jsRound_intCast 0
  simpa using this

lemma jsRound_hundred : jsRound (100 : ℚ) = 100 := by
  have := jsRound_intCast 100
  simpa using this

/-- Round-then-clamp and clamp-then-round agree: `Math.round` is monotone
and fixes the clamp bounds 0 and 100. -/
lemma clampEmotionValue_eq_round_clamp (q : ℚ) :
    clampEmotionValue q = jsRound (min 100 (max 0 q)) := by
  unfold clampEmotionValue
  rcases le_total q 0 with h0 | h0
  · have h1 : jsRound q ≤ 0 := by
      have h := jsRound_le_jsRound h0
      rwa [jsRound_zero] at h
    rw [max_eq_left h0, min_eq_right (by norm_num : (0 : ℚ) ≤ 100), jsRound_zero,
      min_eq_right (h1.trans (by norm_num : (0 : ℤ) ≤ 100)), max_eq_left h1]
  · rcases le_total q 100 with h100 | h100
    · have hl : 0 ≤ jsRound q := by
        have h := jsRound_le_jsRound h0
        rwa [jsRound_zero] at h
      have hr : jsRound q ≤ 100 := by
        have h := jsRound_le_jsRound h100
        rwa [jsRound_hundred] at h
      rw [max_eq_right h0, min_eq_right h100, min_eq_right hr, max_eq_right hl]
    · have hr : (100 : ℤ) ≤ jsRound q := by
        have h := jsRound_le_jsRound h100
        rwa [jsRound_hundred] at h
      rw [max_eq_right h0, min_eq_left h100, jsRound_hundred,
        min_eq_left hr, max_eq_right (by norm_num : (0 : ℤ) ≤ 100)]

/-- C9: `clampEmotionValue` (round, then clamp to [0,100]) coincides with
the spec's clamp-then-round `round(min(100, max(0, value)))`; its output is
an integer in [0,100]; negative inputs clamp to 0; 150 clamps to 100; 50.5
(= 101/2) rounds half-up to 51. -/
theorem claim_C9_clampEmotionValue :
    (∀ q : ℚ, clampEmotionValue q = jsRound (min 100 (max 0 q))) ∧
    (∀ q : ℚ, 0 ≤ clampEmotionValue q ∧ clampEmotionValue q ≤ 100) ∧
    (∀ q : ℚ, 0 < q → clampEmotionValue (-q) = 0) ∧
    clampEmotionValue 150 = 100 ∧ clampEmotionValue (101 / 2) = 51 := by
  refine ⟨clampEmotionValue_eq_round_clamp, ?_, ?_, ?_, ?_⟩
  · intro q
    unfold clampEmotionValue
    exact ⟨le_max_left _ _, max_le (by norm_num) (min_le_left _ _)⟩
  · intro q hq
    have h1 : jsRound (-q) ≤ 0 := by
      have h := jsRound_le_jsRound (show -q ≤ 0 by linarith)
      rwa [jsRound_zero] at h
    unfold clampEmotionValue
    rw [min_eq_right (h1.trans (by norm_num : (0 : ℤ) ≤ 100)), max_eq_left h1]
  · unfold clampEmotionValue
    have h : jsRound (150 : ℚ) = 150 := by
      have := jsRound_intCast 150
      simpa using this
    rw [h]
    norm_num
  · unfold clampEmotionValue
    have h : jsRound (101 / 2 : ℚ) = 51 := by
      unfold jsRound
      rw [Int.floor_eq_iff]
      constructor <;> norm_num
    rw [h]
    norm_num

/-- Witness for C9: the clamp-negative clause applied at 3. -/
theorem claim_C9_clampEmotionValue_witness :
    clampEmotionValue (-(3 : ℚ)) = 0 :=
  claim_C9_clampEmotionValue.2.2.1 3 (by norm_num)

/-- C7: the elapsed-time accumulator.  In order: (1) an unstarted tracker
reports 0 at any instant; (2) a started tracker reports
`floor(((now − start) − pausedTime − (paused ? now − pauseStart : 0)) / 1000)`
(the reading is a pure function of the state, so it cannot mutate it);
(3) while paused the reading does not depend on the query instant, so time
elapsed during the pause never contributes even mid-pause; (4) a second
consecutive `pause` is a no-op, keeping the first pause instant; (5)
`resume` without a prior `pause` is a no-op.  All clauses hold for every
state, hence for every state reachable by any sequence of
start/pause/resume/reset calls at arbitrary instants. -/
theorem claim_C7_gameTimeTracker :
    (∀ (p : ℤ) (l : Option ℤ) (now : ℤ),
        GameTimeTracker.getElapsedSeconds ⟨none, p, l⟩ now = 0) ∧
    (∀ (t : GameTimeTracker) (st now : ℤ), t.startTime = some st →
        t.getElapsedSeconds now =
          Int.fdiv ((now - st) - t.pausedTime -
            (match t.lastPauseStart with | some ps => now - ps | none => 0)) 1000) ∧
    (∀ (t : GameTimeTracker) (ps n1 n2 : ℤ), t.lastPauseStart = some ps →
        t.getElapsedSeconds n1 = t.getElapsedSeconds n2) ∧
    (∀ (t : GameTimeTracker) (n1 n2 : ℤ), (t.pause n1).pause n2 = t.pause n1) ∧
    (∀ (t : GameTimeTracker) (n : ℤ), t.lastPauseStart = none → t.resume n = t) := by
  refine ⟨?_, ?_, ?_, ?_, ?_⟩
  · intro p l now
    rfl
  · intro t st now h
    simp only [GameTimeTracker.getElapsedSeconds, h]
  · intro t ps n1 n2 h
    cases hst : t.startTime with
    | none => simp only [GameTimeTracker.getElapsedSeconds, hst]
    | some st =>
        simp only [GameTimeTracker.getElapsedSeconds, hst, h]
        congr 1
        ring
  · intro t n1 n2
    unfold GameTimeTracker.pause
    rcases t with ⟨st, p, l⟩
    cases st with
    | none => simp
    | some s0 =>
        cases l with
        | some l0 => simp
        | none => simp
  · intro t n h
    unfold GameTimeTracker.resume
    rw [h]

/-- Witness for C7: the hypothesized clauses applied at concrete trackers
and instants. -/
theorem claim_C7_gameTimeTracker_witness :
    GameTimeTracker.getElapsedSeconds ⟨some 0, 0, none⟩ 5000 = 5 ∧
    GameTimeTracker.getElapsedSeconds ⟨some 0, 2000, some 10000⟩ 12345 =
      GameTimeTracker.getElapsedSeconds ⟨some 0, 2000, some 10000⟩ 99999 ∧
    GameTimeTracker.resume ⟨some 0, 0, none⟩ 7 = ⟨some 0, 0, none⟩ := by
  refine ⟨?_, claim_C7_gameTimeTracker.2.2.1 ⟨some 0, 2000, some 10000⟩ 10000 12345 99999 rfl,
    claim_C7_gameTimeTracker.2.2.2.2 ⟨some 0, 0, none⟩ 7 rfl⟩
  have h := claim_C7_gameTimeTracker.2.1 ⟨some 0, 0, none⟩ 0 5000 rfl
  rw [h]
  decide

/-- C10 (implicit): with `maxRetries` zero or negative the `for` loop body
never executes, so the wrapped operation is never invoked (0 calls, no
delays) and the call rejects by throwing the never-assigned `lastError`,
i.e. `undefined`, modelled by `none`. -/
theorem claim_C10_retry_zero_attempts :
    ∀ (α : Type) (fn : ℕ → Except JsError α) (d : ℕ) (m : ℤ), m ≤ 0 →
      retryWithBackoff fn m d = RetryOutcome.failure none 0 [] := by
  intro α fn d m hm
  unfold retryWithBackoff
  rw [Int.toNat_of_nonpos hm]
  rfl

/-- Witness for C10: `maxRetries = 0` on an always-succeeding operation. -/
theorem claim_C10_retry_zero_attempts_witness :
    retryWithBackoff (fun _ => Except.ok (0 : ℕ)) 0 1000 = RetryOutcome.failure none 0 [] :=
  claim_C10_retry_zero_attempts ℕ (fun _ => Except.ok 0) 1000 0 (le_refl 0)

/-- A recoverable (network/server) failure does not satisfy the loop's
immediate-rethrow condition. -/
lemma not_nonretryable_of_recoverable {e : JsError} (h : isRecoverableError e = true) :
    ¬(classifyApiError e ≠ GameErrorCode.NETWORK_ERROR ∧
        classifyApiError e ≠ GameErrorCode.SERVER_ERROR) := by
  simp only [isRecoverableError, Bool.or_eq_true, decide_eq_true_eq] at h
  rcases h with h | h <;> simp [h]

/-- The retry loop under persistent recoverable failures: starting with
`r > 0` attempts left after `a` invocations, it performs exactly `r` more
invocations, awaits a delay of `d·2^(a+i)` before each of the `r − 1`
retries, and throws the last failure. -/
lemma retryLoop_persistent (fn : ℕ → Except JsError α) (d : ℕ) (es : ℕ → JsError) :
    ∀ (r a : ℕ) (le0 : Option JsError) (ds : List ℕ),
      0 < r →
      (∀ i, i < r → fn (a + i) = .error (es (a + i)) ∧ isRecoverableError (es (a + i)) = true) →
      retryLoop fn d r a le0 ds =
        .failure (some (es (a + r - 1))) (a + r)
          (ds ++ (List.range (r - 1)).map (fun i => d * 2 ^ (a + i))) := by
  intro r
  induction r with
  | zero => omega
  | succ r ih =>
      intro a le0 ds _ hall
      obtain ⟨hfn, hrec⟩ := hall 0 (by omega)
      rw [Nat.add_zero] at hfn hrec
      rw [retryLoop, hfn]
      dsimp only
      rw [if_neg (not_nonretryable_of_recoverable hrec)]
      by_cases hr : r = 0
      · subst hr
        rw [if_pos rfl]
        simp
      · rw [if_neg hr]
        have hrest := ih (a + 1) (some (es a)) (ds ++ [d * 2 ^ a]) (by omega)
          (fun i hi => by
            have h := hall (i + 1) (by omega)
            rwa [show a + (i + 1) = a + 1 + i by omega] at h)
        rw [hrest]
        have hidx : a + 1 + r - 1 = a + (r + 1) - 1 := by omega
        have hcalls : a + 1 + r = a + (r + 1) := by omega
        have hlist : (ds ++ [d * 2 ^ a]) ++
              (List.range (r - 1)).map (fun i => d * 2 ^ (a + 1 + i)) =
            ds ++ (List.range r).map (fun i => d * 2 ^ (a + i)) := by
          have hrr : r = (r - 1) + 1 := by omega
          rw [List.append_assoc, List.singleton_append]
          congr 1
          conv_rhs => rw [hrr]
          rw [List.range_succ_eq_map, List.map_cons, List.map_map, Nat.add_zero]
          congr 1
          apply List.map_congr_left
          intro i _
          simp only [Function.comp_apply]
          have he : a + 1 + i = a + i.succ := by omega
          rw [he]
        rw [hidx, hcalls, hlist]
        simp

/-- C2: the retry policy.  In order: (1) first-attempt success returns the
value with one invocation and no delays; (2) a failure classified as
neither network nor server error is rethrown immediately with exactly one
invocation and no delays; (3) persistent network/server failures invoke
the operation exactly `maxAttempts` times, await `initialDelay·2^i` before
retry `i+1` (attempt index from 0), insert no delay after the final
failing attempt, and rethrow the last failure; (4) a recoverable failure
followed by success on attempt 2 returns the value with exactly two
invocations and the single delay `initialDelay`. -/
theorem claim_C2_retryWithBackoff :
    (∀ (α : Type) (fn : ℕ → Except JsError α) (d : ℕ) (m : ℤ) (v : α),
        1 ≤ m → fn 0 = .ok v →
        retryWithBackoff fn m d = .success v 1 []) ∧
    (∀ (α : Type) (fn : ℕ → Except JsError α) (d : ℕ) (m : ℤ) (e : JsError),
        1 ≤ m → fn 0 = .error e → isRecoverableError e = false →
        retryWithBackoff fn m d = .failure (some e) 1 []) ∧
    (∀ (α : Type) (fn : ℕ → Except JsError α) (d : ℕ) (m : ℤ) (es : ℕ → JsError),
        1 ≤ m →
        (∀ i, i < m.toNat → fn i = .error (es i) ∧ isRecoverableError (es i) = true) →
        retryWithBackoff fn m d =
          .failure (some (es (m.toNat - 1))) m.toNat
            ((List.range (m.toNat - 1)).map (fun i => d * 2 ^ i))) ∧
    (∀ (α : Type) (fn : ℕ → Except JsError α) (d : ℕ) (m : ℤ) (e : JsError) (v : α),
        2 ≤ m → fn 0 = .error e → isRecoverableError e = true → fn 1 = .ok v →
        retryWithBackoff fn m d = .success v 2 [d]) := by
  refine ⟨?_, ?_, ?_, ?_⟩
  · intro α fn d m v hm hfn
    obtain ⟨k, hk⟩ : ∃ k, m.toNat = k + 1 := ⟨m.toNat - 1, by omega⟩
    unfold retryWithBackoff
    rw [hk, retryLoop, hfn]
  · intro α fn d m e hm hfn hnr
    obtain ⟨k, hk⟩ : ∃ k, m.toNat = k + 1 := ⟨m.toNat - 1, by omega⟩
    have hcond : classifyApiError e ≠ GameErrorCode.NETWORK_ERROR ∧
        classifyApiError e ≠ GameErrorCode.SERVER_ERROR := by
      simp only [isRecoverableError, Bool.or_eq_false_iff, decide_eq_false_iff_not] at hnr
      exact hnr
    unfold retryWithBackoff
    rw [hk, retryLoop, hfn]
    dsimp only
    rw [if_pos hcond]
  · intro α fn d m es hm hall
    have h := retryLoop_persistent fn d es m.toNat 0 none [] (by omega)
      (fun i hi => by simpa using hall i hi)
    simpa using h
  · intro α fn d m e v hm hfn hrec hok
    obtain ⟨k, hk⟩ : ∃ k, m.toNat = k + 2 := ⟨m.toNat - 2, by omega⟩
    unfold retryWithBackoff
    rw [hk, retryLoop, hfn]
    dsimp only
    rw [if_neg (not_nonretryable_of_recoverable hrec), if_neg (by omega : k + 1 ≠ 0),
      retryLoop, hok]
    simp

/-- Witness for C2: the four clauses applied to concrete operations — an
always-ok one, an auth failure (never retried), a persistent no-status
network failure over 3 attempts (delays 1000 then 2000), and a network
failure followed by success. -/
theorem claim_C2_retryWithBackoff_witness :
    retryWithBackoff (fun _ => Except.ok (42 : ℕ)) 3 1000 = .success 42 1 [] ∧
    retryWithBackoff
        ((fun _ => Except.error (JsError.apiError "Unauthorized" (some 401))) :
          ℕ → Except JsError ℕ) 3 1000 =
      .failure (some (JsError.apiError "Unauthorized" (some 401))) 1 [] ∧
    retryWithBackoff
        ((fun _ => Except.error (JsError.apiError "Network" none)) : ℕ → Except JsError ℕ)
        3 1000 =
      .failure (some (JsError.apiError "Network" none)) 3 [1000, 2000] ∧
    retryWithBackoff
        (fun i => if i = 0 then Except.error (JsError.apiError "Network" none)
          else Except.ok (7 : ℕ)) 3 1000 = .success 7 2 [1000] := by
  refine ⟨claim_C2_retryWithBackoff.1 ℕ _ 1000 3 42 (by norm_num) rfl,
    claim_C2_retryWithBackoff.2.1 ℕ _ 1000 3 _ (by norm_num) rfl (by decide), ?_, ?_⟩
  · have h := claim_C2_retryWithBackoff.2.2.1 ℕ
      ((fun _ => Except.error (JsError.apiError "Network" none)) : ℕ → Except JsError ℕ)
      1000 3 (fun _ => JsError.apiError "Network" none) (by norm_num)
      (by
        intro i _
        refine ⟨rfl, ?_⟩
        show isRecoverableError (JsError.apiError "Network" none) = true
        decide)
    rw [h]
    decide
  · exact claim_C2_retryWithBackoff.2.2.2 ℕ _ 1000 3 _ 7 (by norm_num) rfl (by decide) rfl

/-- C4 counterexample: a transport-level `TypeError` whose message
indicates a fetch failure and which carries no status code is classified
as NetworkError by the code, not as UnknownError as the claim states. -/
theorem claim_C4_counterexample :
    classifyApiError (JsError.typeError "Failed to fetch") = GameErrorCode.NETWORK_ERROR ∧
    GameErrorCode.NETWORK_ERROR ≠ GameErrorCode.UNKNOWN_ERROR := by
  constructor
  · decide
  · decide

/-- C4 amended: a `TypeError` whose message contains "fetch" is classified
as NetworkError — the same class as an `ApiError` with no status code —
and only a `TypeError` without "fetch" in its message falls through to
UnknownError. -/
theorem claim_C4_classifier :
    (∀ msg, strContains msg "fetch" = true →
        classifyApiError (JsError.typeError msg) = GameErrorCode.NETWORK_ERROR) ∧
    (∀ msg, strContains msg "fetch" = false →
        classifyApiError (JsError.typeError msg) = GameErrorCode.UNKNOWN_ERROR) ∧
    (∀ msg, classifyApiError (JsError.apiError msg none) = GameErrorCode.NETWORK_ERROR) := by
  refine ⟨?_, ?_, fun msg => rfl⟩ <;> intro msg h <;> simp [classifyApiError, h]

/-- Witness for C4: the fetch and non-fetch clauses at concrete
messages. -/
theorem claim_C4_classifier_witness :
    classifyApiError (JsError.typeError "fetch failed: connection refused") =
      GameErrorCode.NETWORK_ERROR ∧
    classifyApiError (JsError.typeError "boom") = GameErrorCode.UNKNOWN_ERROR :=
  ⟨claim_C4_classifier.1 "fetch failed: connection refused" (by decide),
    claim_C4_classifier.2.1 "boom" (by decide)⟩

/-- The per-field check succeeds exactly when the field reads as a number
in [0,100]. -/
lemma emotionFieldOk_iff (fields : List (String × JsVal)) (f : String) :
    emotionFieldOk fields f = true ↔
      ∃ v : ℚ, jsLookup fields f = some (JsVal.num v) ∧ 0 ≤ v ∧ v ≤ 100 := by
  unfold emotionFieldOk
  cases hjl : jsLookup fields f with
  | none => simp
  | some w => cases w <;> simp

/-- C5 counterexample: the code's `validateEmotionData` accepts an object
whose `angry` field is the non-integer 50.5 (= 101/2), and also accepts an
object carrying an eighth field beyond the canonical seven; the claim's
validator (exactly seven fields, integer values) rejects both. -/
theorem claim_C5_counterexample :
    validateEmotionData (JsVal.obj [("angry", JsVal.num (101 / 2)),
        ("disgust", JsVal.num 20), ("fear", JsVal.num 30), ("happy", JsVal.num 40),
        ("sad", JsVal.num 50), ("surprise", JsVal.num 60), ("neutral", JsVal.num 70)]) = true ∧
    validateEmotionDataClaimed (JsVal.obj [("angry", JsVal.num (101 / 2)),
        ("disgust", JsVal.num 20), ("fear", JsVal.num 30), ("happy", JsVal.num 40),
        ("sad", JsVal.num 50), ("surprise", JsVal.num 60), ("neutral", JsVal.num 70)]) = false ∧
    validateEmotionData (JsVal.obj [("angry", JsVal.num 10),
        ("disgust", JsVal.num 20), ("fear", JsVal.num 30), ("happy", JsVal.num 40),
        ("sad", JsVal.num 50), ("surprise", JsVal.num 60), ("neutral", JsVal.num 70),
        ("bored", JsVal.num 5)]) = true ∧
    validateEmotionDataClaimed (JsVal.obj [("angry", JsVal.num 10),
        ("disgust", JsVal.num 20), ("fear", JsVal.num 30), ("happy", JsVal.num 40),
        ("sad", JsVal.num 50), ("surprise", JsVal.num 60), ("neutral", JsVal.num 70),
        ("bored", JsVal.num 5)]) = false := by
  refine ⟨?_, ?_, ?_, ?_⟩
  · simp +decide only [validateEmotionData, emotionFieldOk, requiredFields, jsLookup,
      List.find?, List.all_cons, List.all_nil, Option.map_some, Bool.and_eq_true,
      decide_eq_true_eq]
    norm_num
  · simp +decide only [validateEmotionDataClaimed, requiredFields, jsLookup,
      List.find?, List.all_cons, List.all_nil, Option.map_some, Bool.and_eq_false_iff,
      Bool.and_eq_true, decide_eq_true_eq, decide_eq_false_iff_not]
    norm_num [Int.floor_eq_iff]
  · simp +decide only [validateEmotionData, emotionFieldOk, requiredFields, jsLookup,
      List.find?, List.all_cons, List.all_nil, Option.map_some, Bool.and_eq_true,
      decide_eq_true_eq]
  · simp +decide only [validateEmotionDataClaimed, requiredFields, jsLookup,
      List.find?, List.all_cons, List.all_nil, Option.map_some, Bool.and_eq_false_iff,
      Bool.and_eq_true, decide_eq_true_eq, decide_eq_false_iff_not, List.contains_cons]

/-- C5 amended: `validateEmotionData x` is true exactly when `x` is an
object in which each of the seven canonical fields reads as a number in
[0,100] inclusive — fractional in-range values pass, and fields beyond the
seven are ignored. -/
theorem claim_C5_validateEmotionData :
    ∀ x : JsVal, validateEmotionData x = true ↔
      ∃ fields, x = JsVal.obj fields ∧
        ∀ f ∈ requiredFields, ∃ v : ℚ,
          jsLookup fields f = some (JsVal.num v) ∧ 0 ≤ v ∧ v ≤ 100 := by
  intro x
  cases x with
  | obj fields =>
      simp only [validateEmotionData, List.all_eq_true]
      constructor
      · intro h
        exact ⟨fields, rfl, fun f hf => (emotionFieldOk_iff fields f).1 (h f hf)⟩
      · rintro ⟨fields2, heq, hall⟩
        injection heq with h2
        subst h2
        intro f hf
        exact (emotionFieldOk_iff fields f).2 (hall f hf)
  | num q => simp [validateEmotionData]
  | str s => simp [validateEmotionData]
  | boolean b => simp [validateEmotionData]
  | nul => simp [validateEmotionData]
  | undef => simp [validateEmotionData]
  | arr xs => simp [validateEmotionData]

/-- Clamping an integer-valued input reduces to an integer clamp. -/
lemma clampEmotionValue_intCast (n : ℤ) : clampEmotionValue (n : ℚ) = max 0 (min 100 n) := by
  unfold clampEmotionValue
  rw [jsRound_intCast]

/-- C6 counterexample: on `{Anger: 15, Angry: 25}` the normalizer yields
`angry = 25`, not 15 as the claim states — the alias order for the angry
field is `angry, anger, Angry, Anger`, so `Angry` beats `Anger`. -/
theorem claim_C6_counterexample :
    (normalizeEmotionData
        (JsVal.obj [("Anger", JsVal.num 15), ("Angry", JsVal.num 25)])).angry = 25 ∧
    (25 : ℤ) ≠ 15 := by
  constructor
  · have h25 : clampEmotionValue 25 = 25 := by
      have h := clampEmotionValue_intCast 25
      norm_num at h
      exact h
    simp +decide only [normalizeEmotionData, getEmotionValue, jsLookup, List.find?,
      Option.map_some]
    exact h25
  · decide

/-- C6 amended: the normalizer resolves each canonical field by trying its
aliases in order, the first alias bound to a numeric value winning and
non-numeric or missing bindings falling through; `{angry:10, anger:20}`
yields `angry = 10`, but `{Anger:15, Angry:25}` yields `angry = 25`
because the capitalized aliases are tried in the order `Angry` then
`Anger`. -/
theorem claim_C6_normalizeEmotionData :
    (∀ (fields : List (String × JsVal)) (k : String) (ks : List String) (v : ℚ),
        jsLookup fields k = some (JsVal.num v) →
        getEmotionValue fields (k :: ks) = clampEmotionValue v) ∧
    (∀ (fields : List (String × JsVal)) (k : String) (ks : List String),
        (∀ v : ℚ, jsLookup fields k ≠ some (JsVal.num v)) →
        getEmotionValue fields (k :: ks) = getEmotionValue fields ks) ∧
    (normalizeEmotionData
        (JsVal.obj [("angry", JsVal.num 10), ("anger", JsVal.num 20)])).angry = 10 ∧
    (normalizeEmotionData
        (JsVal.obj [("Anger", JsVal.num 15), ("Angry", JsVal.num 25)])).angry = 25 := by
  refine ⟨?_, ?_, ?_, ?_⟩
  · intro fields k ks v h
    simp only [getEmotionValue, h]
  · intro fields k ks h
    cases hjl : jsLookup fields k with
    | none => simp [getEmotionValue, hjl]
    | some w =>
        cases w
        case num q => exact absurd hjl (h q)
        all_goals simp [getEmotionValue, hjl]
  · have h10 : clampEmotionValue 10 = 10 := by
      have h := clampEmotionValue_intCast 10
      norm_num at h
      exact h
    simp +decide only [normalizeEmotionData, getEmotionValue, jsLookup, List.find?,
      Option.map_some]
    exact h10
  · have h25 : clampEmotionValue 25 = 25 := by
      have h := clampEmotionValue_intCast 25
      norm_num at h
      exact h
    simp +decide only [normalizeEmotionData, getEmotionValue, jsLookup, List.find?,
      Option.map_some]
    exact h25

/-- Witness for C6: the first-alias-wins clause on a one-field object and
the fall-through clause on a non-numeric binding. -/
theorem claim_C6_normalizeEmotionData_witness :
    getEmotionValue [("angry", JsVal.num 10)] ["angry", "anger"] = clampEmotionValue 10 ∧
    getEmotionValue [("x", JsVal.str "y")] ["x"] = getEmotionValue [("x", JsVal.str "y")] [] :=
  ⟨claim_C6_normalizeEmotionData.1 _ "angry" ["anger"] 10 rfl,
    claim_C6_normalizeEmotionData.2.1 _ "x" []
      (fun v h => by simp +decide [jsLookup, List.find?] at h)⟩

/-- The shared advance tail always invokes the transport. -/
lemma advanceWithResponse_called (s : GameState) (em : EmotionData) (t : ℤ)
    (res : Except JsError NextSceneResponse) :
    (advanceWithResponse s em t res).calledTransport = true := by
  cases res with
  | error e => rfl
  | ok r =>
      cases hs : r.scenes with
      | none => simp [advanceWithResponse, hs]
      | some l =>
          cases l with
          | nil => simp [advanceWithResponse, hs]
          | cons sc0 rest =>
              cases hv : validateSceneData sc0 <;> simp [advanceWithResponse, hs, hv]

/-- When the shared advance tail rejects, the stored error message is
`handleApiError` of the thrown value. -/
lemma advanceWithResponse_stored (s : GameState) (em : EmotionData) (t : ℤ)
    (res : Except JsError NextSceneResponse) (e : JsError) :
    (advanceWithResponse s em t res).thrown = some e →
    (advanceWithResponse s em t res).state.error = some (handleApiError e) := by
  cases res with
  | error e0 =>
      intro h
      simp [advanceWithResponse] at h ⊢
      rw [h]
  | ok r =>
      cases hs : r.scenes with
      | none =>
          intro h
          simp [advanceWithResponse, hs] at h ⊢
          rw [h]
      | some l =>
          cases l with
          | nil =>
              intro h
              simp [advanceWithResponse, hs] at h ⊢
              rw [h]
          | cons sc0 rest =>
              cases hv : validateSceneData sc0 with
              | false =>
                  intro h
                  simp [advanceWithResponse, hs, hv] at h ⊢
                  rw [h]
              | true =>
                  intro h
                  simp [advanceWithResponse, hs, hv] at h

/-- `proceedToNextScene` either reaches the shared advance tail (with the
defaulted emotion) or rejects on a precondition with the state untouched
and no transport call. -/
lemma proceedToNextScene_cases (s : GameState) (em : Option EmotionData) (t : ℤ)
    (res : Except JsError NextSceneResponse) :
    proceedToNextScene s em t res =
        advanceWithResponse s (em.getD getDefaultEmotionData) t res ∨
    ((proceedToNextScene s em t res).state = s ∧
      (proceedToNextScene s em t res).calledTransport = false) := by
  cases hg : s.gameId with
  | none => right; constructor <;> simp [proceedToNextScene, hg]
  | some g =>
      cases hs : s.sessionId with
      | none => right; constructor <;> simp [proceedToNextScene, hg, hs]
      | some sid =>
          cases hc : s.currentSceneId with
          | none => right; constructor <;> simp [proceedToNextScene, hg, hs, hc]
          | some cid =>
              cases hcur : getCurrentScene s with
              | none => left; simp [proceedToNextScene, hg, hs, hc, hcur]
              | some sc =>
                  by_cases ht : sc.type = "dialogue"
                  · left; simp [proceedToNextScene, hg, hs, hc, hcur, ht]
                  · right
                    constructor <;> simp [proceedToNextScene, hg, hs, hc, hcur, ht]

/-- `selectChoice` either reaches the shared advance tail or rejects on a
precondition with the state untouched and no transport call. -/
lemma selectChoice_cases (s : GameState) (sel : ℤ) (em : Option EmotionData) (t : ℤ)
    (res : Except JsError NextSceneResponse) :
    selectChoice s sel em t res =
        advanceWithResponse s (em.getD getDefaultEmotionData) t res ∨
    ((selectChoice s sel em t res).state = s ∧
      (selectChoice s sel em t res).calledTransport = false) := by
  cases hg : s.gameId with
  | none => right; constructor <;> simp [selectChoice, hg]
  | some g =>
      cases hs : s.sessionId with
      | none => right; constructor <;> simp [selectChoice, hg, hs]
      | some sid =>
          cases hc : s.currentSceneId with
          | none => right; constructor <;> simp [selectChoice, hg, hs, hc]
          | some cid =>
              cases hcur : getCurrentScene s with
              | none => right; constructor <;> simp [selectChoice, hg, hs, hc, hcur]
              | some sc =>
                  by_cases ht : sc.type = "selection" ∨ sc.type = "selections"
                  · have hnot : ¬(sc.type ≠ "selection" ∧ sc.type ≠ "selections") := by
                      tauto
                    cases hsel : sc.selections with
                    | none =>
                        right
                        constructor <;> simp [selectChoice, hg, hs, hc, hcur, hsel, hnot]
                    | some sels =>
                        cases hf : (sels.find? (fun p => p.fst = toString sel)).isNone with
                        | true =>
                            right
                            constructor <;>
                              simp [selectChoice, hg, hs, hc, hcur, hsel, hf, hnot]
                        | false =>
                            left
                            simp [selectChoice, hg, hs, hc, hcur, hsel, hf, hnot]
                  · right
                    have hnot : sc.type ≠ "selection" ∧ sc.type ≠ "selections" := by
                      tauto
                    constructor <;> simp [selectChoice, hg, hs, hc, hcur, hnot]

/-- C3: when `createGame` resolves but the `sessions` field is missing or
empty, `createNewGame` rejects with the MissingSession error (the thrown
`createMissingSessionError` carries code `MISSING_SESSION`), leaving every
field of the state except the loading flag and the error message exactly
as it was — in particular gameId, sessionId and currentSceneId, so a first
game's gameId remains null; and on every rejection of `createNewGame`, the
three identifiers are preserved and the loading flag is cleared. -/
theorem claim_C3_createNewGame :
    (∀ (s : GameState) (r : CreateGameResponse),
        r.sessions = none ∨ r.sessions = some [] →
        createNewGame s (Except.ok r) =
          ⟨{ s with isLoading := false, error := some (handleApiError createMissingSessionError) },
            some createMissingSessionError, true, none⟩) ∧
    (∀ (s : GameState) (res : Except JsError CreateGameResponse) (e : JsError),
        (createNewGame s res).thrown = some e →
        (createNewGame s res).state.gameId = s.gameId ∧
        (createNewGame s res).state.sessionId = s.sessionId ∧
        (createNewGame s res).state.currentSceneId = s.currentSceneId ∧
        (createNewGame s res).state.isLoading = false) := by
  constructor
  · intro s r h
    rcases h with h | h <;> simp [createNewGame, h]
  · intro s res e h
    cases res with
    | error e0 => simp [createNewGame]
    | ok r =>
        cases hs : r.sessions with
        | none => simp [createNewGame, hs]
        | some l =>
            cases l with
            | nil => simp [createNewGame, hs]
            | cons fs rest =>
                cases hv : validateSessionData fs with
                | false => simp [createNewGame, hs, hv]
                | true =>
                    cases hsc : fs.scenes with
                    | nil => simp [createNewGame, hs, hv, hsc]
                    | cons sc0 scr =>
                        cases hv0 : validateSceneData sc0 with
                        | false => simp [createNewGame, hs, hv, hsc, hv0]
                        | true => simp [createNewGame, hs, hv, hsc, hv0] at h

/-- Witness for C3: scenario D — creation resolving with `sessions: []`
from the initial (all-null) state, and an identifier check after a
transport rejection. -/
theorem claim_C3_createNewGame_witness :
    createNewGame initialGameState (Except.ok emptySessionsResponse) =
      ⟨{ initialGameState with isLoading := false, error := some (handleApiError createMissingSessionError) },
        some createMissingSessionError, true, none⟩ ∧
    ((createNewGame initialGameState
        (Except.error (JsError.apiError "boom" none))).state.gameId =
          initialGameState.gameId ∧
      (createNewGame initialGameState
          (Except.error (JsError.apiError "boom" none))).state.sessionId =
          initialGameState.sessionId ∧
      (createNewGame initialGameState
          (Except.error (JsError.apiError "boom" none))).state.currentSceneId =
          initialGameState.currentSceneId ∧
      (createNewGame initialGameState
          (Except.error (JsError.apiError "boom" none))).state.isLoading = false) :=
  ⟨claim_C3_createNewGame.1 initialGameState emptySessionsResponse (Or.inr rfl),
    claim_C3_createNewGame.2 initialGameState
      (Except.error (JsError.apiError "boom" none)) (JsError.apiError "boom" none) rfl⟩

/-- C8 counterexample: a MissingSession structural failure of
`createNewGame` stores the fixed UnknownError message, not the fixed
MissingSession message (which is a different string) — `classifyApiError`
recognizes only `ApiError` and `TypeError`, so a `GameStateError` always
classifies as UnknownError. -/
theorem claim_C8_counterexample :
    (createNewGame initialGameState (Except.ok emptySessionsResponse)).state.error =
      some (getErrorMessage GameErrorCode.UNKNOWN_ERROR) ∧
    getErrorMessage GameErrorCode.UNKNOWN_ERROR ≠
      getErrorMessage GameErrorCode.MISSING_SESSION := by
  constructor
  · rfl
  · decide

/-- C8 amended: every failure that an engine operation catches after
entering its loading phase stores `handleApiError` of the thrown value —
one fixed message per *classified* kind; but a `GameStateError` always
classifies as UnknownError, so structural MissingSession/InvalidScene
failures store the fixed UnknownError message rather than one of their own
kind, and precondition failures thrown before the loading phase leave the
state (including its error field) entirely untouched. -/
theorem claim_C8_errorMessages :
    (∀ (msg : String) (code : GameErrorCode),
        classifyApiError (JsError.gameStateError msg code) = GameErrorCode.UNKNOWN_ERROR) ∧
    (∀ (s : GameState) (res : Except JsError CreateGameResponse) (e : JsError),
        (createNewGame s res).thrown = some e →
        (createNewGame s res).state.error = some (handleApiError e)) ∧
    (∀ (s : GameState) (em : Option EmotionData) (t : ℤ)
        (res : Except JsError NextSceneResponse) (e : JsError),
        (proceedToNextScene s em t res).thrown = some e →
        (proceedToNextScene s em t res).calledTransport = true →
        (proceedToNextScene s em t res).state.error = some (handleApiError e)) ∧
    (∀ (s : GameState) (em : Option EmotionData) (t : ℤ)
        (res : Except JsError NextSceneResponse),
        (proceedToNextScene s em t res).calledTransport = false →
        (proceedToNextScene s em t res).state = s) ∧
    (∀ (s : GameState) (sel : ℤ) (em : Option EmotionData) (t : ℤ)
        (res : Except JsError NextSceneResponse) (e : JsError),
        (selectChoice s sel em t res).thrown = some e →
        (selectChoice s sel em t res).calledTransport = true →
        (selectChoice s sel em t res).state.error = some (handleApiError e)) ∧
    (∀ (s : GameState) (sel : ℤ) (em : Option EmotionData) (t : ℤ)
        (res : Except JsError NextSceneResponse),
        (selectChoice s sel em t res).calledTransport = false →
        (selectChoice s sel em t res).state = s) := by
  refine ⟨fun msg code => rfl, ?_, ?_, ?_, ?_, ?_⟩
  · intro s res e h
    cases res with
    | error e0 =>
        simp [createNewGame] at h ⊢
        rw [h]
    | ok r =>
        cases hs : r.sessions with
        | none =>
            simp [createNewGame, hs] at h ⊢
            rw [h]
        | some l =>
            cases l with
            | nil =>
                simp [createNewGame, hs] at h ⊢
                rw [h]
            | cons fs rest =>
                cases hv : validateSessionData fs with
                | false =>
                    simp [createNewGame, hs, hv] at h ⊢
                    rw [h]
                | true =>
                    cases hsc : fs.scenes with
                    | nil =>
                        simp [createNewGame, hs, hv, hsc] at h ⊢
                        rw [h]
                    | cons sc0 scr =>
                        cases hv0 : validateSceneData sc0 with
                        | false =>
                            simp [createNewGame, hs, hv, hsc, hv0] at h ⊢
                            rw [h]
                        | true => simp [createNewGame, hs, hv, hsc, hv0] at h
  · intro s em t res e h hc
    rcases proceedToNextScene_cases s em t res with hcase | hcase
    · rw [hcase] at h ⊢
      exact advanceWithResponse_stored s _ t res e h
    · rw [hcase.2] at hc
      exact absurd hc (by simp)
  · intro s em t res hc
    rcases proceedToNextScene_cases s em t res with hcase | hcase
    · rw [hcase] at hc
      rw [advanceWithResponse_called] at hc
      exact absurd hc (by simp)
    · exact hcase.1
  · intro s sel em t res e h hc
    rcases selectChoice_cases s sel em t res with hcase | hcase
    · rw [hcase] at h ⊢
      exact advanceWithResponse_stored s _ t res e h
    · rw [hcase.2] at hc
      exact absurd hc (by simp)
  · intro s sel em t res hc
    rcases selectChoice_cases s sel em t res with hcase | hcase
    · rw [hcase] at hc
      rw [advanceWithResponse_called] at hc
      exact absurd hc (by simp)
    · exact hcase.1

/-- Witness for C8: the stored-message clauses at concrete states — a
transport rejection of `createNewGame`, a transport rejection of
`proceedToNextScene` at the last scene, and a precondition rejection of
`selectChoice` (dialogue scene, so no transport call and untouched
state). -/
theorem claim_C8_errorMessages_witness :
    (createNewGame initialGameState
        (Except.error (JsError.apiError "down" (some 503)))).state.error =
      some (handleApiError (JsError.apiError "down" (some 503))) ∧
    (proceedToNextScene oneSceneState none 0
        (Except.error (JsError.apiError "down" (some 503)))).state.error =
      some (handleApiError (JsError.apiError "down" (some 503))) ∧
    (selectChoice oneSceneState 1 none 0 (Except.ok respOneScene)).state = oneSceneState :=
  ⟨claim_C8_errorMessages.2.1 initialGameState
      (Except.error (JsError.apiError "down" (some 503))) (JsError.apiError "down" (some 503)) rfl,
    claim_C8_errorMessages.2.2.1 oneSceneState none 0
      (Except.error (JsError.apiError "down" (some 503))) (JsError.apiError "down" (some 503))
      rfl rfl,
    claim_C8_errorMessages.2.2.2.2.2 oneSceneState 1 none 0 (Except.ok respOneScene) rfl⟩

/-- When the hook reports the current scene is not last, `handleNextScene`
advances only the page's own index, calls no transport, and leaves the
hook state untouched. -/
lemma handleNextScene_not_last (p : PageState) (em : EmotionData) (t : ℤ)
    (res : Except JsError NextSceneResponse) (h : isLastScene p.game = false) :
    (handleNextScene p em t res).2 = false ∧
    (handleNextScene p em t res).1.pageIndex = p.pageIndex + 1 ∧
    (handleNextScene p em t res).1.game = p.game := by
  have hlt : p.game.currentSceneIndex < p.game.scenes.length := by
    simp [isLastScene] at h
    omega
  obtain ⟨sc, hsc⟩ : ∃ sc, getCurrentScene p.game = some sc :=
    ⟨p.game.scenes.get ⟨p.game.currentSceneIndex, hlt⟩, List.get?_eq_get hlt⟩
  simp [handleNextScene, hsc, h]

/-- C1 counterexample: at a two-scene buffer with the index at 0 —
`isLastScene()` false — `proceedToNextScene` does make a transport call
(the hook has no local-advance path); and the caller's local advance in
`handleNextScene` leaves `currentSceneId` at the old scene's id 1, while
the scene at the new page index has id 2 — the claim's "index becomes
index+1 and currentSceneId becomes the id of the new buffer[index] with no
transport call" fails on both counts. -/
theorem claim_C1_counterexample :
    isLastScene twoSceneState = false ∧
    (proceedToNextScene twoSceneState none 0 (Except.ok respOneScene)).calledTransport = true ∧
    (handleNextScene twoScenePage getDefaultEmotionData 0
        (Except.ok respOneScene)).1.pageIndex = 1 ∧
    (handleNextScene twoScenePage getDefaultEmotionData 0
        (Except.ok respOneScene)).1.game.currentSceneId = some 1 ∧
    (twoSceneState.scenes.get? 1).map SceneData.scene_id = some 2 := by
  refine ⟨by decide, by decide, by decide, by decide, by decide⟩

/-- C1 amended: the hook itself has no local-advance path —
`proceedToNextScene` always invokes the transport once its preconditions
pass, regardless of the buffer position; the local advance lives in the
GamePage handler: when `isLastScene()` is false, `handleNextScene`
increments only the page's own scene index with no transport call and with
the hook state — in particular `currentSceneId` and the hook's buffer
index — left unchanged; and `handleNextScene` makes a transport call only
when `isLastScene()` is true. -/
theorem claim_C1_advance :
    (∀ (p : PageState) (em : EmotionData) (t : ℤ) (res : Except JsError NextSceneResponse),
        isLastScene p.game = false →
        (handleNextScene p em t res).2 = false ∧
        (handleNextScene p em t res).1.pageIndex = p.pageIndex + 1 ∧
        (handleNextScene p em t res).1.game = p.game) ∧
    (∀ (p : PageState) (em : EmotionData) (t : ℤ) (res : Except JsError NextSceneResponse),
        (handleNextScene p em t res).2 = true → isLastScene p.game = true) ∧
    (∀ (s : GameState) (em : Option EmotionData) (t : ℤ)
        (res : Except JsError NextSceneResponse),
        s.gameId ≠ none → s.sessionId ≠ none → s.currentSceneId ≠ none →
        (∀ sc, getCurrentScene s = some sc → sc.type = "dialogue") →
        (proceedToNextScene s em t res).calledTransport = true) := by
  refine ⟨handleNextScene_not_last, ?_, ?_⟩
  · intro p em t res h
    cases hl : isLastScene p.game with
    | true => rfl
    | false =>
        have h2 := (handleNextScene_not_last p em t res hl).1
        rw [h2] at h
        exact absurd h (by simp)
  · intro s em t res h1 h2 h3 h4
    cases hg : s.gameId with
    | none => exact absurd hg h1
    | some g =>
        cases hs2 : s.sessionId with
        | none => exact absurd hs2 h2
        | some sid =>
            cases hc : s.currentSceneId with
            | none => exact absurd hc h3
            | some cid =>
                cases hcur : getCurrentScene s with
                | none =>
                    simp [proceedToNextScene, hg, hs2, hc, hcur, advanceWithResponse_called]
                | some sc =>
                    have ht := h4 sc hcur
                    simp [proceedToNextScene, hg, hs2, hc, hcur, ht,
                      advanceWithResponse_called]

/-- Witness for C1: the local-advance clause at the two-scene page, the
only-at-last clause at a one-scene page whose advance does call the
transport, and the always-network clause of the hook at the two-scene
state. -/
theorem claim_C1_advance_witness :
    ((handleNextScene twoScenePage getDefaultEmotionData 0 (Except.ok respOneScene)).2 = false ∧
      (handleNextScene twoScenePage getDefaultEmotionData 0
          (Except.ok respOneScene)).1.pageIndex = twoScenePage.pageIndex + 1 ∧
      (handleNextScene twoScenePage getDefaultEmotionData 0
          (Except.ok respOneScene)).1.game = twoScenePage.game) ∧
    isLastScene oneScenePage.game = true ∧
    (proceedToNextScene twoSceneState none 0
        (Except.ok respOneScene)).calledTransport = true :=
  ⟨claim_C1_advance.1 twoScenePage getDefaultEmotionData 0 (Except.ok respOneScene) (by decide),
    claim_C1_advance.2.1 oneScenePage getDefaultEmotionData 0 (Except.ok respOneScene) (by decide),
    claim_C1_advance.2.2 twoSceneState none 0 (Except.ok respOneScene)
      (by decide) (by decide) (by decide)
      (fun sc hsc => by
        have h2 : sceneD1 = sc := Option.some.inj hsc
        rw [← h2]
        rfl)⟩

end WhileGame
